import Mathlib

/-!
Verification of the record-normalization and merge pipeline of
`jobstats.py` (slurm-jobstats).  The Python source is shallowly embedded:
pure parsing helpers become Lean functions on `String`, exceptions become
`Except PyError`, Python `float` seconds/gigabytes become `Rat` (all values
exercised here are exactly representable in IEEE-754 doubles), and the
`defaultdict`-based merge becomes an insertion-ordered association list.
-/

namespace Jobstats

/-- Errors a pipeline run can end with.  `valueError` models a Python
`ValueError` (from `int(...)` or timedelta parsing), `unboundLocal` the
`UnboundLocalError` raised at `jobstats.py:111` when no `ReqMem` branch was
taken, `keyError` a missing dict key / missing DataFrame column, and
`noJobs` the `print("ERROR: Found no jobs!"); exit(1)` path at
`jobstats.py:77-79`. -/
inductive PyError where
  | valueError
  | unboundLocal
  | keyError
  | noJobs
deriving DecidableEq, Repr

/-- True when the character list `pat` occurs as a contiguous sublist of
`s`; helper for Python's substring test `pat in s`. -/
def listContainsSub (pat : List Char) : List Char → Bool
  | [] => pat.isEmpty
  | c :: rest => pat.isPrefixOf (c :: rest) || listContainsSub pat rest

/-- Python's substring containment test `pat in s`. -/
def strContains (s pat : String) : Bool :=
  listContainsSub pat.toList s.toList

/-- Python's `str.strip(c)`: remove every copy of `c` from both ends. -/
def stripChar (s : String) (c : Char) : String :=
  ⟨((s.toList.dropWhile (· = c)).reverse.dropWhile (· = c)).reverse⟩

/-- ASCII whitespace, as stripped by Python's `int(...)` on strings. -/
def isSpaceChar (c : Char) : Bool :=
  c == ' ' || c == '\t' || c == '\n' || c == '\r' || c == '\x0b' || c == '\x0c'

/-- Python's `str.strip()` (no argument): whitespace off both ends. -/
def pyStrip (s : String) : String :=
  ⟨((s.toList.dropWhile (fun c => isSpaceChar c)).reverse.dropWhile
      (fun c => isSpaceChar c)).reverse⟩

/-- Splitting a character list on every occurrence of the separator
`c`; the list of segments is never empty. -/
def splitOnChar (c : Char) : List Char → List (List Char)
  | [] => [[]]
  | x :: rest =>
    match splitOnChar c rest with
    | [] => [[]]
    | h :: t => if x == c then [] :: h :: t else (x :: h) :: t

/-- Python's `str.split(sep)` for a one-character separator: every
occurrence separates two (possibly empty) segments. -/
def pySplit (s : String) (c : Char) : List String :=
  (splitOnChar c s.toList).map (fun l => ⟨l⟩)

/-- True when `suffix` is a suffix of `s`. -/
def strEndsWith (s suffix : String) : Bool :=
  List.isSuffixOf suffix.toList s.toList

/-- Value of a nonempty all-digit character list, accumulator style. -/
def digitsValAux : List Char → Nat → Option Nat
  | [], acc => some acc
  | c :: rest, acc =>
      if c.isDigit then digitsValAux rest (acc * 10 + (c.toNat - 48)) else none

/-- Value of a nonempty all-digit character list; `none` otherwise. -/
def digitsVal (cs : List Char) : Option Nat :=
  if cs.isEmpty then none else digitsValAux cs 0

/-- Python's `int(s)` on strings: optional surrounding whitespace, optional
sign, then decimal digits; `none` models the `ValueError` raised on
anything else.  (Python's underscore digit grouping and non-ASCII digits
are not modelled; no accounting field uses them.) -/
def pyInt (s : String) : Option Int :=
  match (pyStrip s).toList with
  | '-' :: rest => (digitsVal rest).map (fun n => -(n : Int))
  | '+' :: rest => (digitsVal rest).map (fun n => (n : Int))
  | cs => (digitsVal cs).map (fun n => (n : Int))

/-- Model of `pd.to_timedelta` restricted to the colon-separated
`H:MM:SS` form emitted by sacct (the only form the script feeds it);
anything else raises `ValueError`.  Result is in seconds. -/
def parseHMS (s : String) : Except PyError Rat :=
  match pySplit s ':' with
  | [h, m, sec] =>
      match digitsVal h.toList, digitsVal m.toList, digitsVal sec.toList with
      | some hv, some mv, some sv => .ok ((hv * 3600 + mv * 60 + sv : Nat) : Rat)
      | _, _, _ => .error .valueError
  | _ => .error .valueError

/-- Model of `datetime.strptime(s, "%M:%S.%f")` followed by conversion to
seconds: one-or-two-digit minute below 60, one-or-two-digit second below
62 (strptime accepts leap seconds), and a 1-6 digit fraction scaled to
microseconds. -/
def parseMSf (s : String) : Except PyError Rat :=
  match pySplit s '.' with
  | [mmss, frac] =>
      match pySplit mmss ':' with
      | [m, sec] =>
          match digitsVal m.toList, digitsVal sec.toList, digitsVal frac.toList with
          | some mv, some sv, some fv =>
              if m.length ≤ 2 ∧ mv ≤ 59 ∧ sec.length ≤ 2 ∧ sv ≤ 61 ∧
                  1 ≤ frac.length ∧ frac.length ≤ 6 then
                .ok (((mv * 60 + sv : Nat) : Rat) +
                  ((fv * 10 ^ (6 - frac.length) : Nat) : Rat) / 1000000)
              else .error .valueError
          | _, _, _ => .error .valueError
      | _ => .error .valueError
  | _ => .error .valueError

/-- Embedding of `parse_timedelta` (`jobstats.py:88-98`): a dash selects
the day form `D-HH:MM:SS` (Python's two-target unpacking of `split("-")`
raises `ValueError` unless there are exactly two parts), otherwise a dot
selects the `%M:%S.%f` form, otherwise the plain `H:MM:SS` form.  Returns
total seconds. -/
def parse_timedelta (timestring : String) : Except PyError Rat :=
  if strContains timestring "-" then
    match pySplit timestring '-' with
    | [days, rest] =>
        match pyInt days with
        | some d =>
            match parseHMS rest with
            | .ok r => .ok ((d : Rat) * 86400 + r)
            | .error e => .error e
        | none => .error .valueError
    | _ => .error .valueError
  else if strContains timestring "." then parseMSf timestring
  else parseHMS timestring

/-- Embedding of the `MaxRSS` block of `parse_mem` (`jobstats.py:113-117`):
`int(maxrss.strip("K")) / 1024 / 1024` with the `ValueError` handler
substituting the sentinel 0. -/
def parseMaxRSS (s : String) : Rat :=
  match pyInt (stripChar s 'K') with
  | some v => (v : Rat) / 1024 / 1024
  | none => 0

/-- Embedding of `parse_mem` (`jobstats.py:101-119`) on the three dict
fields it reads: requested memory in GB paired with peak memory in GB.
The branches test substring containment of `Gc` / `Gn` / `Mn` (exactly as
the Python `in` operator does) and fall through to `unboundLocal` when
none matches, mirroring the `requested_GB` reference error at line 111. -/
def parse_mem (reqMemStr : String) (allocCPUs : Int) (maxRSSStr : String) :
    Except PyError (Rat × Rat) :=
  let req : Except PyError Rat :=
    if strContains reqMemStr "Gc" then
      match pyInt ((pySplit reqMemStr 'G').headD "") with
      | some reqmem => .ok ((allocCPUs * reqmem : Int) : Rat)
      | none => .error .valueError
    else if strContains reqMemStr "Gn" then
      match pyInt ((pySplit reqMemStr 'G').headD "") with
      | some n => .ok ((n : Int) : Rat)
      | none => .error .valueError
    else if strContains reqMemStr "Mn" then
      match pyInt ((pySplit reqMemStr 'M').headD "") with
      | some m => .ok ((m : Rat) / 1024)
      | none => .error .valueError
    else .error .unboundLocal
  match req with
  | .error e => .error e
  | .ok r => .ok (r, parseMaxRSS maxRSSStr)

/-- The `sacct` format string of `jobstats.py:17-29`, already split on the
comma: the ordered field names every raw row is zipped against. -/
def FIELDS : List String :=
  ["Jobid", "Partition", "AllocCPUS", "TotalCPU", "ReqMem", "MaxRSS",
   "Start", "End", "Elapsed", "State", "Jobname"]

/-- `dict(zip(SACCT_FORMAT.split(","), row.split("|")))` at
`jobstats.py:56`: zip truncates on mismatch exactly as Python's does, and
with the distinct `FIELDS` keys the dict is an association list. -/
def tokenize (row : String) : List (String × String) :=
  FIELDS.zip (pySplit row '|')

/-- Dict lookup `job[k]`; a missing key is Python's `KeyError`. -/
def getField (tok : List (String × String)) (k : String) : Except PyError String :=
  match tok.lookup k with
  | some v => .ok v
  | none => .error .keyError

/-- A fully normalized job dict, as it stands after `jobstats.py:61-66`:
numeric fields parsed, timestamps parsed (`none` is pandas `NaT`, produced
by `pd.to_datetime` on an empty string), strings kept raw. -/
structure Job where
  jobid : String
  partition : String
  allocCPUs : Int
  totalCPU : Rat
  reqMem : Rat
  maxRSS : Rat
  start : Option String
  endTime : Option String
  elapsed : Rat
  state : String
  jobname : String
deriving DecidableEq, Repr

/-- Model of `pd.to_datetime`: the empty string becomes `NaT` (`none`);
any other value is kept abstractly as its text, since the script never
computes with the parsed timestamps.  (Raising on malformed text is not
modelled; no claim feeds a malformed nonempty timestamp.) -/
def pdToDatetime (s : String) : Except PyError (Option String) :=
  if s = "" then .ok none else .ok (some s)

/-- A value of the merge map `jobs`: either a fully normalized job dict,
or the dict `{"MaxRSS": v}` that `defaultdict(dict)` creates when a
sub-step row arrives before its top-level row (`jobstats.py:72`). -/
inductive Entry where
  | full (j : Job)
  | memOnly (maxRSS : Rat)
deriving DecidableEq, Repr

/-- The merge map `jobs = defaultdict(dict)`: an association list in
Python-3.7 dict insertion order. -/
abbrev JobsMap := List (String × Entry)

/-- `jobs[k] = v` on a dict: overwrite in place if the key exists,
append otherwise. -/
def mapSet (m : JobsMap) (k : String) (v : Entry) : JobsMap :=
  if (List.any m (fun p => p.1 == k)) then
    List.map (fun p => if p.1 == k then (k, v) else p) m
  else m ++ [(k, v)]

/-- `jobs[k]["MaxRSS"] = v` (`jobstats.py:72`): update the peak-memory
field of an existing entry, or let the `defaultdict` create a fresh
memory-only dict. -/
def setMaxRSS (m : JobsMap) (k : String) (v : Rat) : JobsMap :=
  if (List.any m (fun p => p.1 == k)) then
    List.map
      (fun p =>
        if p.1 == k then
          (k, match p.2 with
              | Entry.full j => Entry.full { j with maxRSS := v }
              | Entry.memOnly _ => Entry.memOnly v)
        else p) m
  else m ++ [(k, Entry.memOnly v)]

/-- Normalization and merge of one surviving row (`jobstats.py:61-75`),
in the source's evaluation order: `int(AllocCPUS)`, `parse_timedelta
(TotalCPU)`, `parse_mem`, `pd.to_datetime(Start)`, `pd.to_datetime(End)`,
`parse_timedelta(Elapsed)`, then the `.batch` branch.  `Partition` and
`Jobname` are read here when building the record; the Python dict defers
them to the DataFrame stage, which differs only for surviving rows with
exactly 10 fields (never produced by sacct, and unused by every claim). -/
def normalizeRow (jobs : JobsMap) (row : String) (jobid state : String) :
    Except PyError JobsMap := do
  let allocS ← getField (tokenize row) "AllocCPUS"
  let alloc ← match pyInt allocS with
    | some n => Except.ok n
    | none => Except.error PyError.valueError
  let totalCPU ← parse_timedelta (← getField (tokenize row) "TotalCPU")
  let reqS ← getField (tokenize row) "ReqMem"
  let rssS ← getField (tokenize row) "MaxRSS"
  let mem ← parse_mem reqS alloc rssS
  let startT ← pdToDatetime (← getField (tokenize row) "Start")
  let endT ← pdToDatetime (← getField (tokenize row) "End")
  let elapsed ← parse_timedelta (← getField (tokenize row) "Elapsed")
  let partitionS ← getField (tokenize row) "Partition"
  let jobnameS ← getField (tokenize row) "Jobname"
  if strContains jobid ".batch" then
    let base := (pySplit jobid '.').headD ""
    return setMaxRSS jobs base mem.2
  else
    return mapSet jobs jobid (Entry.full
      ⟨jobid, partitionS, alloc, totalCPU, mem.1, mem.2,
       startT, endT, elapsed, state, jobnameS⟩)

/-- One iteration of the row loop (`jobstats.py:55-75`): tokenize, skip
rows with an empty job id, skip rows whose state is not `COMPLETED`,
otherwise normalize and merge. -/
def processRow (jobs : JobsMap) (row : String) : Except PyError JobsMap :=
  match getField (tokenize row) "Jobid" with
  | .error e => .error e
  | .ok jobid =>
    if jobid = "" then .ok jobs
    else
      match getField (tokenize row) "State" with
      | .error e => .error e
      | .ok state =>
        if state = "COMPLETED" then normalizeRow jobs row jobid state
        else .ok jobs

/-- The DataFrame returned by `parse_sacct`: `hasJobCols` records whether
the column set (the union of the merged dicts' keys) contains the full
job schema, i.e. whether at least one merged value was a full dict;
`rows` are the rows surviving `dropna`. -/
structure DF where
  hasJobCols : Bool
  rows : List Entry
deriving DecidableEq, Repr

/-- Row completeness for `df.dropna()` when the full column set is
present: a memory-only dict is `NaN` in every other column, and a full
dict is `NaN` exactly in a `NaT` timestamp column (all other fields are
parsed numbers or raw strings). -/
def entryComplete : Entry → Bool
  | Entry.full j => j.start.isSome && j.endTime.isSome
  | Entry.memOnly _ => false

/-- Embedding of `parse_sacct` (`jobstats.py:53-85`): fold the row loop,
fail with `noJobs` when the merge map is empty (the check precedes
`dropna`), then build the DataFrame and drop incomplete rows.  When every
merged value is memory-only the only column is `MaxRSS`, so no row holds
a `NaN` and `dropna` keeps them all. -/
def parse_sacct (results : List String) : Except PyError DF :=
  match List.foldlM processRow ([] : JobsMap) results with
  | .error e => .error e
  | .ok jobs =>
    if jobs.length < 1 then .error PyError.noJobs
    else
      let entries := List.map Prod.snd jobs
      let hasFull := List.any entries (fun e => match e with
        | Entry.full _ => true
        | Entry.memOnly _ => false)
      if hasFull then .ok ⟨true, List.filter entryComplete entries⟩
      else .ok ⟨false, entries⟩

/-- IEEE-754 double as pandas sees it after a division: a finite value
(exact here, every claim input being exactly representable), an infinity,
or `NaN`. -/
inductive PdFloat where
  | val (q : Rat)
  | inf
  | negInf
  | nan
deriving DecidableEq, Repr

/-- Element-wise pandas float division: finite quotient when the
denominator is nonzero, signed infinity for `x/0` with `x ≠ 0`, `NaN`
for `0/0`.  No exception is raised and no undefined marker exists. -/
def pdDiv (a b : Rat) : PdFloat :=
  if b ≠ 0 then .val (a / b)
  else if 0 < a then .inf
  else if a < 0 then .negInf
  else .nan

/-- `jobs["TotalCPU"] / (jobs["AllocCPUS"] * jobs["Elapsed"])`
(`jobstats.py:142`). -/
def cpuEff (j : Job) : PdFloat :=
  pdDiv j.totalCPU ((j.allocCPUs : Rat) * j.elapsed)

/-- `jobs["MaxRSS"] / jobs["ReqMem"]` (`jobstats.py:143`). -/
def memEff (j : Job) : PdFloat :=
  pdDiv j.maxRSS j.reqMem

/-- One output row: the job plus its two derived efficiency columns. -/
structure EffRow where
  job : Job
  cpuEfficiency : PdFloat
  memEfficiency : PdFloat
deriving DecidableEq, Repr

/-- The `__main__` pipeline on already-split sacct lines
(`jobstats.py:140-143`): parse and merge, then add the two efficiency
columns.  Column access `jobs["TotalCPU"]` raises `KeyError` when the
DataFrame lacks the job columns while still holding rows (all merged
values memory-only). -/
def main_pipeline (results : List String) : Except PyError (List EffRow) :=
  match parse_sacct results with
  | .error e => .error e
  | .ok df =>
    if !df.hasJobCols && !df.rows.isEmpty then .error PyError.keyError
    else .ok (List.filterMap
      (fun e => match e with
        | Entry.full j => some ⟨j, cpuEff j, memEff j⟩
        | Entry.memOnly _ => none) df.rows)

/-! ## Concrete raw rows used across the claims -/

/-- The spec's end-to-end top-level row for job 100, with concrete
timestamps standing in for the spec's `Start=..., End=...`. -/
def rowTop : String :=
  "100|p|2|00:10:00|4Gn||2023-01-01T00:00:00|2023-01-01T00:20:00|00:20:00|COMPLETED|run1"

/-- The spec's end-to-end sub-step row for job 100: every field blank
except the job id, the peak memory and the state. -/
def rowSubBlank : String :=
  "100.batch|||||2097152K||||COMPLETED|"

/-- A sub-step row for job 100 whose secondary fields are populated (as
real sacct `.batch` lines are). -/
def rowSubFull : String :=
  "100.batch|p|2|00:10:00|4Gn|2097152K|2023-01-01T00:00:00|2023-01-01T00:20:00|00:20:00|COMPLETED|batch"

/-- A completed top-level row whose `Start` field is blank, so its
timestamp parses to `NaT` and `dropna` discards the merged record. -/
def rowNoStart : String :=
  "100|p|2|00:10:00|4Gn|||2023-01-01T00:20:00|00:20:00|COMPLETED|run1"

/-- A completed top-level row with zero elapsed time. -/
def rowZeroElapsed : String :=
  "200|p|2|00:10:00|4Gn|1048576K|2023-01-01T00:00:00|2023-01-01T00:00:00|00:00:00|COMPLETED|run2"

/-- The normalized record of `rowTop`, parametrized by the peak memory
the merge leaves on it. -/
def job100 (rss : Rat) : Job :=
  ⟨"100", "p", 2, 600, 4, rss, some "2023-01-01T00:00:00",
   some "2023-01-01T00:20:00", 1200, "COMPLETED", "run1"⟩

/-! ## Helper lemmas about the row loop -/

/-- Looking up `Jobid` on a tokenized row returns the text before the
first delimiter. -/
theorem getField_jobid (row v : String) (vs : List String)
    (h : pySplit row '|' = v :: vs) :
    getField (tokenize row) "Jobid" = .ok v := by
  unfold getField tokenize FIELDS
  rw [h]
  rfl

/-- A row with no `State` key cannot answer a `State` lookup, so a
successful lookup forces the split to be nonempty. -/
theorem state_lookup_split (row s : String)
    (h : getField (tokenize row) "State" = .ok s) :
    ∃ v vs, pySplit row '|' = v :: vs := by
  cases hs : pySplit row '|' with
  | nil =>
      exfalso
      unfold getField tokenize at h
      rw [hs] at h
      simp [List.lookup] at h
  | cons v vs => exact ⟨v, vs, rfl⟩

/-! ## Claim theorems -/

/-- C6: the duration parser maps `"01:02:03"` to 3723 seconds,
`"2-01:02:03"` to 176523 seconds and `"00:01.500000"` to 1.5 seconds,
following the `days*86400 + hours*3600 + minutes*60 + seconds +
microseconds*1e-6` decomposition. -/
theorem parse_timedelta_literals :
    parse_timedelta "01:02:03" = .ok 3723 ∧
    parse_timedelta "2-01:02:03" = .ok 176523 ∧
    parse_timedelta "00:01.500000" = .ok (3 / 2) :=
  ⟨rfl, by with_unfolding_all rfl, by with_unfolding_all rfl⟩

/-- C7: the memory-request parser maps `"4Gc"` with `alloc_cpus = 4` to
16 GB (per-CPU gigabytes times allocated CPUs), `"8Gn"` to 8 GB for any
CPU count (total gigabytes, no multiplication), and `"2048Mn"` to 2 GB
for any CPU count (total megabytes divided by 1024). -/
theorem parse_mem_literals :
    parse_mem "4Gc" 4 "" = .ok (16, 0) ∧
    (∀ alloc : Int, parse_mem "8Gn" alloc "" = .ok (8, 0)) ∧
    (∀ alloc : Int, parse_mem "2048Mn" alloc "" = .ok (2, 0)) :=
  ⟨rfl, fun _ => rfl, fun _ => by with_unfolding_all rfl⟩

/-- C8: the memory-usage parser maps `"1048576K"` to 1 GB, and every
input whose K-stripped text is not a Python integer literal (missing or
non-numeric input) yields the sentinel 0 instead of an error. -/
theorem parse_maxrss_values :
    parseMaxRSS "1048576K" = 1 ∧
    ∀ s : String, pyInt (stripChar s 'K') = none → parseMaxRSS s = 0 :=
  ⟨by with_unfolding_all rfl, fun s h => by simp [parseMaxRSS, h]⟩

/-- Witness for C8: the empty string (the blank `MaxRSS` of a top-level
row) is non-numeric and yields the sentinel 0. -/
theorem parse_maxrss_values_witness :
    pyInt (stripChar "" 'K') = none ∧ parseMaxRSS "" = 0 :=
  ⟨rfl, parse_maxrss_values.2 "" rfl⟩

/-- C10 counterexample: the memory-usage parser accepts the minus-signed
input `"-1048576K"` and produces the negative value -1 GB, so the parser
does not guarantee a non-negative result for every accepted input. -/
theorem maxrss_negative_cex :
    parseMaxRSS "-1048576K" = -1 ∧ parseMaxRSS "-1048576K" < 0 := by
  constructor
  · with_unfolding_all rfl
  · rw [show parseMaxRSS "-1048576K" = -1 by with_unfolding_all rfl]
    norm_num

/-- C10 amended: the memory-usage parser is non-negative for every input
whose K-stripped text either fails to parse (sentinel 0) or parses to a
non-negative integer; a minus-signed numeric input is the one family
producing a negative value. -/
theorem maxrss_nonneg_amended (s : String)
    (h : ∀ v : Int, pyInt (stripChar s 'K') = some v → 0 ≤ v) :
    0 ≤ parseMaxRSS s := by
  unfold parseMaxRSS
  cases hp : pyInt (stripChar s 'K') with
  | none => norm_num
  | some v =>
      have hv := h v hp
      have : (0 : Rat) ≤ (v : Rat) := by exact_mod_cast hv
      positivity

/-- Witness for C10: a digit-only input gives a non-negative result. -/
theorem maxrss_nonneg_amended_witness : 0 ≤ parseMaxRSS "42K" :=
  maxrss_nonneg_amended "42K" (fun v hv => by
    rw [show pyInt (stripChar "42K" 'K') = some 42 from rfl] at hv
    cases hv
    norm_num)

/-- C5 counterexample: `"4GnX"` ends with none of the three recognized
suffix encodings, yet the memory-request parser succeeds with the value
4 GB, because the source tests substring containment (`"Gn" in s`)
rather than the suffix. -/
theorem reqmem_suffix_cex :
    strEndsWith "4GnX" "Gc" = false ∧
    strEndsWith "4GnX" "Gn" = false ∧
    strEndsWith "4GnX" "Mn" = false ∧
    parse_mem "4GnX" 1 "" = .ok (4, 0) :=
  ⟨rfl, rfl, rfl, rfl⟩

/-- C5 amended: the memory-request parser fails (with the reference
error of `jobstats.py:111`, not a silent success) exactly when the
request string contains none of `Gc`, `Gn`, `Mn` as a substring; a string
merely containing one of the markers can succeed even when its suffix is
unrecognized. -/
theorem reqmem_unrecognized_errors (req : String) (alloc : Int) (rss : String)
    (h1 : strContains req "Gc" = false)
    (h2 : strContains req "Gn" = false)
    (h3 : strContains req "Mn" = false) :
    parse_mem req alloc rss = .error .unboundLocal := by
  simp [parse_mem, h1, h2, h3]

/-- Witness for C5: `"4GB"` contains no recognized marker and the parser
fails with the unbound-variable error. -/
theorem reqmem_unrecognized_errors_witness :
    strContains "4GB" "Gc" = false ∧
    strContains "4GB" "Gn" = false ∧
    strContains "4GB" "Mn" = false ∧
    parse_mem "4GB" 1 "" = .error .unboundLocal :=
  ⟨rfl, rfl, rfl, reqmem_unrecognized_errors "4GB" 1 "" rfl rfl rfl⟩

/-- C9: a record whose `State` field is anything but the sentinel
`"COMPLETED"` is skipped by the row loop and so never reaches the merge
map, the table, or the output: processing it leaves the merge state
untouched whatever the surrounding rows did. -/
theorem filtered_state_never_in_output (jobs : JobsMap) (row s : String)
    (hstate : getField (tokenize row) "State" = .ok s)
    (hne : s ≠ "COMPLETED") : processRow jobs row = .ok jobs := by
  obtain ⟨v, vs, hsplit⟩ := state_lookup_split row s hstate
  have hj := getField_jobid row v vs hsplit
  unfold processRow
  rw [hj]
  by_cases hv : v = ""
  · simp [hv]
  · simp [hv, hstate, hne]

/-- Witness for C9: a `FAILED` row leaves an empty merge map empty. -/
theorem filtered_state_never_in_output_witness :
    getField (tokenize "1|p|1|x|y|z|s|e|el|FAILED|n") "State" = .ok "FAILED" ∧
    processRow [] "1|p|1|x|y|z|s|e|el|FAILED|n" = .ok [] :=
  ⟨rfl, filtered_state_never_in_output [] _ "FAILED" rfl (by decide)⟩

/-- Decision of the two `continue` guards at `jobstats.py:57-60`: the
row's job id is empty, or its state is present and differs from
`COMPLETED`. -/
def rowSkipped (row : String) : Bool :=
  match getField (tokenize row) "Jobid" with
  | .ok jobid =>
    if jobid = "" then true
    else
      match getField (tokenize row) "State" with
      | .ok s => s != "COMPLETED"
      | .error _ => false
  | .error _ => false

/-- A skipped row leaves the merge map unchanged. -/
theorem processRow_skipped (jobs : JobsMap) (row : String)
    (h : rowSkipped row = true) : processRow jobs row = .ok jobs := by
  unfold rowSkipped at h
  unfold processRow
  cases hj : getField (tokenize row) "Jobid" with
  | error e => rw [hj] at h; simp at h
  | ok jobid =>
    rw [hj] at h
    dsimp only at h ⊢
    by_cases hv : jobid = ""
    · simp [hv]
    · rw [if_neg hv] at h ⊢
      cases hs : getField (tokenize row) "State" with
      | error e => rw [hs] at h; simp at h
      | ok s =>
        rw [hs] at h
        dsimp only at h ⊢
        have hne : s ≠ "COMPLETED" := by simpa using h
        simp [hne]

/-- Folding the row loop over rows that are all skipped returns the
initial merge map. -/
theorem foldlM_skipped (rows : List String) :
    ∀ m : JobsMap, (∀ r ∈ rows, rowSkipped r = true) →
    List.foldlM processRow m rows = .ok m := by
  induction rows with
  | nil => intro m _; rfl
  | cons r rs ih =>
      intro m h
      have hr := processRow_skipped m r (h r (List.mem_cons_self r rs))
      have ht := ih m (fun r2 hr2 => h r2 (List.mem_cons_of_mem r hr2))
      rw [List.foldlM_cons, hr]
      show List.foldlM processRow m rs = Except.ok m
      exact ht

/-- C3 amended: the run aborts with the "no jobs" error exactly in the
cases where no raw row at all survives the job-id/state filter (empty
input included); the check at `jobstats.py:77` precedes `dropna`, so it
cannot fire when merged records exist but are all discarded for missing
fields. -/
theorem no_jobs_error_when_all_rows_filtered (rows : List String)
    (h : ∀ r ∈ rows, rowSkipped r = true) :
    main_pipeline rows = .error .noJobs := by
  have hf := foldlM_skipped rows [] h
  unfold main_pipeline parse_sacct
  rw [hf]
  rfl

/-- Witness for C3: a blank line plus a `TIMEOUT` row abort with the
"no jobs" error. -/
theorem no_jobs_error_witness :
    (∀ r ∈ ["", "2|q|1|a|b|c|d|e|f|TIMEOUT|m"], rowSkipped r = true) ∧
    main_pipeline ["", "2|q|1|a|b|c|d|e|f|TIMEOUT|m"] = .error .noJobs :=
  ⟨by decide, no_jobs_error_when_all_rows_filtered _ (by decide)⟩

/-- C3 counterexample: one completed row with a blank `Start` produces a
merged record that `dropna` discards, yet the run does not fail: it
returns an empty table (written out silently with exit status 0),
because the "no jobs" check runs before `dropna`. -/
theorem silent_empty_table_cex : main_pipeline [rowNoStart] = .ok [] := by
  with_unfolding_all rfl

/-- C1 counterexample: the same completed top-level and sub-step rows
merged in the two orders give different finalized records, so the merge
is not order-independent. -/
theorem merge_order_dependent_cex :
    parse_sacct [rowTop, rowSubFull] ≠ parse_sacct [rowSubFull, rowTop] := by
  have h1 : parse_sacct [rowTop, rowSubFull] =
      .ok ⟨true, [Entry.full (job100 2)]⟩ := by with_unfolding_all rfl
  have h2 : parse_sacct [rowSubFull, rowTop] =
      .ok ⟨true, [Entry.full (job100 0)]⟩ := by with_unfolding_all rfl
  rw [h1, h2]
  intro h
  simp [job100] at h

/-- C1 amended: the merge keeps the sub-step's peak memory only when the
top-level row arrives first (the order sacct emits); in the reverse
order the later top-level assignment `jobs[jobid] = job` replaces the
whole entry, clobbering the already-populated peak-memory value back to
the top-level row's own sentinel 0. -/
theorem merge_order_dependence :
    parse_sacct [rowTop, rowSubFull] = .ok ⟨true, [Entry.full (job100 2)]⟩ ∧
    parse_sacct [rowSubFull, rowTop] = .ok ⟨true, [Entry.full (job100 0)]⟩ :=
  ⟨by with_unfolding_all rfl, by with_unfolding_all rfl⟩

/-- C2 counterexample: on the spec's exact two rows — the sub-step row
carrying only id, peak memory and state — the run crashes with a
`ValueError` (`int("")` on the blank `AllocCPUS` at `jobstats.py:61`,
reached because normalization precedes the `.batch` branch), instead of
producing the one-row table the claim describes. -/
theorem end_to_end_blank_substep_cex :
    main_pipeline [rowTop, rowSubBlank] = .error .valueError := by
  with_unfolding_all rfl

/-- C2 amended: with the sub-step row's secondary fields holding
parseable values (as real sacct `.batch` lines do), the pipeline yields
exactly one row for job 100 with peak memory 2 GB, CPU efficiency
600/(2*1200) = 1/4 and memory efficiency 2/4 = 1/2. -/
theorem end_to_end_scenario_amended :
    main_pipeline [rowTop, rowSubFull] =
      .ok [⟨job100 2, .val (1 / 4), .val (1 / 2)⟩] := by
  with_unfolding_all rfl

/-- C4 counterexample: a surviving completed job with zero elapsed time
gets the IEEE infinity as its CPU-efficiency value — pandas float
division propagates `inf` into the output instead of any explicit
undefined marker. -/
theorem zero_elapsed_inf_cex :
    main_pipeline [rowZeroElapsed] =
      .ok [⟨⟨"200", "p", 2, 600, 4, 1, some "2023-01-01T00:00:00",
             some "2023-01-01T00:00:00", 0, "COMPLETED", "run2"⟩,
            PdFloat.inf, PdFloat.val (1 / 4)⟩] := by
  with_unfolding_all rfl

/-- C4 amended: a zero denominator (zero elapsed time for CPU
efficiency, zero requested memory for memory efficiency) produces the
IEEE infinity when the numerator is positive and NaN when it is zero;
no undefined-value marker exists in the computation. -/
theorem zero_denominator_gives_inf_or_nan (j : Job) :
    (j.elapsed = 0 → 0 < j.totalCPU → cpuEff j = .inf) ∧
    (j.elapsed = 0 → j.totalCPU = 0 → cpuEff j = .nan) ∧
    (j.reqMem = 0 → 0 < j.maxRSS → memEff j = .inf) ∧
    (j.reqMem = 0 → j.maxRSS = 0 → memEff j = .nan) := by
  refine ⟨?_, ?_, ?_, ?_⟩ <;> intro h1 h2 <;>
    simp [cpuEff, memEff, pdDiv, h1, h2]

/-- Witness for C4: a zero-elapsed, zero-request job with positive
consumption gets infinities, one with zero consumption NaNs. -/
theorem zero_denominator_witness :
    cpuEff ⟨"w1", "p", 1, 5, 0, 3, none, none, 0, "COMPLETED", "w1"⟩ = .inf ∧
    memEff ⟨"w1", "p", 1, 5, 0, 3, none, none, 0, "COMPLETED", "w1"⟩ = .inf ∧
    cpuEff ⟨"w2", "p", 1, 0, 0, 0, none, none, 0, "COMPLETED", "w2"⟩ = .nan ∧
    memEff ⟨"w2", "p", 1, 0, 0, 0, none, none, 0, "COMPLETED", "w2"⟩ = .nan :=
  ⟨(zero_denominator_gives_inf_or_nan _).1 rfl (by norm_num),
   (zero_denominator_gives_inf_or_nan _).2.2.1 rfl (by norm_num),
   (zero_denominator_gives_inf_or_nan _).2.1 rfl rfl,
   (zero_denominator_gives_inf_or_nan _).2.2.2 rfl rfl⟩

end Jobstats
